import Mathlib

/-!
Shallow embedding of the resilient Grafana API request layer of this
repository (src/genkit/grafanaApi.ts): typed error taxonomy, credential
resolution from the environment, header merging, log sanitization, the
timeout/backoff retry loop of grafanaApiRequest, and the shouldRetry
policy.  The network transport (global fetch) is modelled as a script
mapping the invocation index to an outcome, and the observable side
effects of a call (timer arming, backoff sleeps, transport invocations)
are collected in an event trace.
-/

set_option autoImplicit false

namespace GrafanaApi

/-- Models the JavaScript string method `s.includes(pat)`. -/
def strIncludes (s pat : String) : Bool :=
  (List.range (s.data.length + 1)).any (fun i => pat.data.isPrefixOf (s.data.drop i))

/-- Enum GrafanaErrorType of grafanaApi.ts. -/
inductive GrafanaErrorType where
  | AUTHENTICATION
  | AUTHORIZATION
  | NOT_FOUND
  | VALIDATION
  | SERVER
  | NETWORK
  | TIMEOUT
  | UNKNOWN
deriving DecidableEq

/-- A thrown JavaScript error that is not a GrafanaApiError: its class
(whether it is a TypeError), its name and its message.  AbortError is the
plain error with name "AbortError". -/
structure PlainErr where
  isTypeError : Bool
  name : String
  message : String
deriving DecidableEq

/-- A thrown JavaScript error as observed by the catch blocks of
grafanaApi.ts: either a plain Error or a GrafanaApiError (statusCode,
endpoint, message, type, optional cause).  Every construction site of
GrafanaApiError in the source passes either no cause or a non-Grafana
error as cause, so the cause field holds a PlainErr. -/
inductive JsError where
  | plain (e : PlainErr)
  | grafana (statusCode : Int) (endpoint message : String)
      (errType : GrafanaErrorType) (cause : Option PlainErr)
deriving DecidableEq

/-- The name property of a thrown error; the GrafanaApiError constructor
sets it to "GrafanaApiError". -/
def JsError.name : JsError → String
  | .plain e => e.name
  | .grafana _ _ _ _ _ => "GrafanaApiError"

/-- The message property of a thrown error. -/
def JsError.message : JsError → String
  | .plain e => e.message
  | .grafana _ _ m _ _ => m

/-- Models `error instanceof TypeError && error.message.includes("network")`. -/
def isNetworkTypeError : JsError → Bool
  | .plain e => e.isTypeError && strIncludes e.message "network"
  | .grafana _ _ _ _ _ => false

/-- Function shouldRetry of grafanaApi.ts (lines 165 to 188). -/
def shouldRetry (error : JsError) (attemptCount maxRetries : Int) : Bool :=
  if attemptCount ≥ maxRetries then
    false
  else if isNetworkTypeError error then
    true
  else if error.name = "AbortError" then
    true
  else
    match error with
    | .grafana statusCode _ _ _ _ => statusCode ≥ 500 || statusCode = 429
    | .plain _ => false

/-- The process environment variables read by validateEnvironment; a
missing variable is none. -/
structure Env where
  GRAFANA_URL : Option String
  GRAFANA_API_KEY : Option String
  GRAFANA_USERNAME : Option String
  GRAFANA_PASSWORD : Option String

/-- Models the JavaScript string method trim: drop leading and trailing
whitespace. -/
def jsTrim (s : String) : String :=
  String.mk (((s.data.dropWhile Char.isWhitespace).reverse.dropWhile
    Char.isWhitespace).reverse)

/-- Models `process.env.X?.trim()` followed by a JavaScript truthiness
test: a missing variable and an empty trimmed string are both falsy, so
both collapse to the empty string. -/
def optTrim (o : Option String) : String :=
  (o.map jsTrim).getD ""

/-- The base64 alphabet used by Buffer.toString("base64"). -/
def base64Alphabet : List Char :=
  "ABCDEFGHIJKLMNOPQRSTUVWXYZabcdefghijklmnopqrstuvwxyz0123456789+/".data

/-- The base64 digit for a 6-bit value. -/
def base64Char (n : Nat) : Char :=
  base64Alphabet.getD n '='

/-- Base64 encoding of a byte list (values below 256), with padding. -/
def base64EncodeList : List Nat → List Char
  | [] => []
  | [a] =>
      [base64Char (a / 4), base64Char (a % 4 * 16), '=', '=']
  | [a, b] =>
      [base64Char (a / 4), base64Char (a % 4 * 16 + b / 16),
       base64Char (b % 16 * 4), '=']
  | a :: b :: c :: rest =>
      base64Char (a / 4) :: base64Char (a % 4 * 16 + b / 16) ::
      base64Char (b % 16 * 4 + c / 64) :: base64Char (c % 64) ::
      base64EncodeList rest

/-- UTF-8 encoding of one character as a byte list. -/
def utf8Bytes (c : Char) : List Nat :=
  let n := c.toNat
  if n < 128 then [n]
  else if n < 2048 then [192 + n / 64, 128 + n % 64]
  else if n < 65536 then [224 + n / 4096, 128 + n / 64 % 64, 128 + n % 64]
  else [240 + n / 262144, 128 + n / 4096 % 64, 128 + n / 64 % 64, 128 + n % 64]

/-- Models `Buffer.from(s).toString("base64")`. -/
def base64Encode (s : String) : String :=
  String.mk (base64EncodeList ((s.data.map utf8Bytes).flatten))

/-- The message of the missing-credentials GrafanaApiError thrown by
validateEnvironment. -/
def authMissingMessage : String :=
  "Grafana authentication credentials not found. Please set either GRAFANA_API_KEY or both GRAFANA_USERNAME and GRAFANA_PASSWORD in your environment."

/-- Function validateEnvironment of grafanaApi.ts (lines 88 to 126):
returns the normalized base URL (guaranteed trailing slash) and the
Authorization header value, or throws. -/
def validateEnvironment (env : Env) : Except JsError (String × String) :=
  let url := optTrim env.GRAFANA_URL
  let apiKey := optTrim env.GRAFANA_API_KEY
  let username := optTrim env.GRAFANA_USERNAME
  let password := optTrim env.GRAFANA_PASSWORD
  if url = "" then
    .error (.plain ⟨false, "Error", "GRAFANA_URL must be set in your environment."⟩)
  else
    let normalizedUrl := if url.data.getLast? = some '/' then url else url ++ "/"
    if apiKey ≠ "" then
      .ok (normalizedUrl, "Bearer " ++ apiKey)
    else if username ≠ "" ∧ password ≠ "" then
      .ok (normalizedUrl, "Basic " ++ base64Encode (username ++ ":" ++ password))
    else
      .error (.grafana 401 "authentication" authMissingMessage .AUTHENTICATION none)

/-- Property read on a JavaScript object modelled as an ordered key-value
list with distinct keys: first match wins. -/
def jsObjGet : List (String × String) → String → Option String
  | [], _ => none
  | (k, v) :: rest, key => if k = key then some v else jsObjGet rest key

/-- Property write on a JavaScript object modelled as an ordered key-value
list: updates the first entry with the key in place, appends otherwise. -/
def jsObjSet : List (String × String) → String → String → List (String × String)
  | [], key, value => [(key, value)]
  | (k, v) :: rest, key, value =>
      if k = key then (k, value) :: rest else (k, v) :: jsObjSet rest key value

/-- JavaScript truthiness of a property read: present and nonempty. -/
def jsTruthy : Option String → Bool
  | some v => v ≠ ""
  | none => false

/-- The header sanitization of safeLog (grafanaApi.ts lines 142 to 151):
replaces the value of the key "Authorization" and of the key
"authorization", each only when present with a truthy value. -/
def sanitizeHeaders (headers : List (String × String)) : List (String × String) :=
  let h1 := if jsTruthy (jsObjGet headers "Authorization") then
      jsObjSet headers "Authorization" "[REDACTED]"
    else headers
  if jsTruthy (jsObjGet h1 "authorization") then
    jsObjSet h1 "authorization" "[REDACTED]"
  else h1

/-- The headers part of the data emitted by safeLog: nothing when logging
is disabled, the sanitized headers otherwise. -/
def safeLogEmittedHeaders (headers : List (String × String))
    (enableLogging : Bool) : Option (List (String × String)) :=
  if enableLogging = false then none
  else some (sanitizeHeaders headers)

/-- The header merge performed by the fetch call of grafanaApiRequest
(lines 257 to 262): object spread of the caller headers followed by the
three fixed entries, which overwrite caller entries with the same key. -/
def mergeHeaders (callerHeaders : List (String × String))
    (authHeader : String) : List (String × String) :=
  jsObjSet (jsObjSet (jsObjSet callerHeaders
    "Authorization" authHeader)
    "Content-Type" "application/json")
    "Accept" "application/json"

/-- A resolved fetch response: status, the declared content type, the
result of text(), and the result of json() (a parsed value, or the parse
error message when the body is not valid JSON). -/
structure HttpResponse where
  status : Int
  contentType : String := ""
  bodyText : String := ""
  jsonResult : Except String String := .error ""

/-- The ok property of a fetch response: status in the 200 to 299 range. -/
def HttpResponse.ok (r : HttpResponse) : Bool :=
  200 ≤ r.status && r.status ≤ 299

/-- One invocation of the transport: the fetch promise resolves with a
response or rejects with a thrown error. -/
inductive FetchOutcome where
  | success (r : HttpResponse)
  | failure (e : PlainErr)

/-- Observable events of one call to grafanaApiRequest, in order:
arming the abort timer, the backoff sleep, the transport invocation, and
clearing the timer. -/
inductive Event where
  | armTimeout (timeoutMs : Int)
  | sleep (delayMs : Int)
  | fetchCall (url : String) (headers : List (String × String))
  | clearTimeoutCall
deriving DecidableEq

/-- Status classification of a non-ok response (lines 274 to 285). -/
def classifyStatus (status : Int) : GrafanaErrorType :=
  if status = 401 then .AUTHENTICATION
  else if status = 403 then .AUTHORIZATION
  else if status = 404 then .NOT_FOUND
  else if status = 400 ∨ status = 422 then .VALIDATION
  else if status ≥ 500 then .SERVER
  else .UNKNOWN

/-- The backoff delay computed on retry attempts (line 247):
baseRetryDelayMs * 2 ^ (attempt - 1), for attempt at least 1. -/
def backoffDelay (baseRetryDelayMs : Int) (attempt : Nat) : Int :=
  baseRetryDelayMs * 2 ^ (attempt - 1)

/-- The events of one loop iteration up to the transport invocation, in
source order (lines 242 to 264): the abort timer is armed first, then on
retry attempts the backoff sleep runs, then fetch is called. -/
def attemptPrelude (timeoutMs baseRetryDelayMs : Int) (attempt : Nat)
    (requestUrl : String) (headers : List (String × String)) : List Event :=
  [.armTimeout timeoutMs] ++
  (if attempt > 0 then [.sleep (backoffDelay baseRetryDelayMs attempt)] else []) ++
  [.fetchCall requestUrl headers]

/-- Milliseconds of sleep occurring before the first transport invocation
of an event list. -/
def sleepBeforeFetch : List Event → Int
  | [] => 0
  | .fetchCall _ _ :: _ => 0
  | .sleep d :: rest => d + sleepBeforeFetch rest
  | _ :: rest => sleepBeforeFetch rest

/-- The time available to the network call of an attempt before the abort
signal fires: the timer fires timeoutMs after it is armed at the start of
the iteration, and the fetch starts after the sleeps of the iteration. -/
def fetchWindowMs (timeoutMs baseRetryDelayMs : Int) (attempt : Nat) : Int :=
  timeoutMs - sleepBeforeFetch (attemptPrelude timeoutMs baseRetryDelayMs attempt "" [])

/-- The per-call configuration of the retry loop after option merging and
credential resolution. -/
structure LoopConfig where
  timeoutMs : Int
  maxRetries : Int
  baseRetryDelayMs : Int
  requestUrl : String
  headers : List (String × String)
  normalizedEndpoint : String

/-- The try block of one loop iteration (lines 240 to 308): the events it
emits and its outcome, a returned value or a thrown error. -/
def attemptBody (transport : Nat → FetchOutcome) (cfg : LoopConfig)
    (attempt : Nat) : List Event × Except JsError String :=
  let evs := attemptPrelude cfg.timeoutMs cfg.baseRetryDelayMs attempt
    cfg.requestUrl cfg.headers
  match transport attempt with
  | .failure e => (evs, .error (.plain e))
  | .success r =>
      let evs := evs ++ [.clearTimeoutCall]
      if r.ok = false then
        (evs, .error (.grafana r.status cfg.normalizedEndpoint
          ("Request failed with status " ++ toString r.status ++ ": " ++ r.bodyText)
          (classifyStatus r.status) none))
      else
        match r.jsonResult with
        | .ok v => (evs, .ok v)
        | .error msg => (evs, .error (.plain ⟨false, "SyntaxError", msg⟩))

/-- The catch block of the loop (lines 309 to 332): an AbortError is
wrapped as a TIMEOUT GrafanaApiError with status 408, then a network
TypeError is wrapped as a NETWORK GrafanaApiError with status 0. -/
def wrapCaught (cfg : LoopConfig) (e : JsError) : JsError :=
  let lastError := e
  let lastError :=
    if lastError.name = "AbortError" then
      JsError.grafana 408 cfg.normalizedEndpoint
        ("Request timed out after " ++ toString cfg.timeoutMs ++ "ms")
        .TIMEOUT (match lastError with | .plain p => some p | _ => none)
    else lastError
  if isNetworkTypeError lastError then
    JsError.grafana 0 cfg.normalizedEndpoint
      ("Network error: " ++ lastError.message)
      .NETWORK (match lastError with | .plain p => some p | _ => none)
  else lastError

/-- Result of the attempt loop: a value returned from inside the loop, an
error thrown from inside the loop, or the fall-through after the loop
(line 347, throw lastError) with the last error observed, if any. -/
inductive LoopResult where
  | returned (value : String)
  | threw (e : JsError)
  | fellThrough (lastError : Option JsError)
deriving DecidableEq

/-- The attempt loop (lines 239 to 343), with the remaining number of
iterations as fuel: run the try block; on a thrown error wrap it, then
continue when shouldRetry allows it and rethrow otherwise. -/
def loopGo (transport : Nat → FetchOutcome) (cfg : LoopConfig) :
    Nat → Nat → Option JsError → List Event × LoopResult
  | 0, _, lastError => ([], .fellThrough lastError)
  | fuel + 1, attempt, _ =>
      let evs := (attemptBody transport cfg attempt).1
      match (attemptBody transport cfg attempt).2 with
      | .ok v => (evs, .returned v)
      | .error e =>
          let lastError := wrapCaught cfg e
          if shouldRetry lastError attempt cfg.maxRetries then
            let rest := loopGo transport cfg fuel (attempt + 1) (some lastError)
            (evs ++ rest.1, rest.2)
          else
            (evs, .threw lastError)

/-- The full attempt loop: iterations for attempt = 0 up to maxRetries
inclusive, none when maxRetries is negative. -/
def runAttempts (transport : Nat → FetchOutcome) (cfg : LoopConfig) :
    List Event × LoopResult :=
  loopGo transport cfg (cfg.maxRetries + 1).toNat 0 none

/-- The caller-controlled options of grafanaApiRequest with their
defaults (DEFAULT_API_OPTIONS, lines 75 to 80). -/
structure RequestOptions where
  timeoutMs : Int := 30000
  maxRetries : Int := 3
  baseRetryDelayMs : Int := 1000
  enableLogging : Bool := false
  headers : List (String × String) := []

/-- Endpoint normalization (line 210): strip one leading slash when the
endpoint starts with one. -/
def normalizeEndpoint (endpoint : String) : String :=
  match endpoint.data with
  | c :: rest => if c = '/' then String.mk rest else endpoint
  | [] => endpoint

/-- The outer catch block (lines 348 to 362): a GrafanaApiError is
rethrown unchanged, any other error is wrapped with status 500 and kind
UNKNOWN. -/
def outerWrap (normalizedEndpoint : String) (e : JsError) : JsError :=
  match e with
  | .grafana _ _ _ _ _ => e
  | .plain p => .grafana 500 normalizedEndpoint
      ("Unexpected error: " ++ p.message) .UNKNOWN (some p)

/-- Function grafanaApiRequest of grafanaApi.ts (lines 200 to 363) over a
transport script, returning the event trace and the settled result. -/
def grafanaApiRequestT (env : Env) (transport : Nat → FetchOutcome)
    (endpoint : String) (options : RequestOptions) :
    List Event × Except JsError String :=
  if endpoint = "" then
    ([], .error (.plain ⟨false, "Error", "Endpoint must be a non-empty string"⟩))
  else
    let normalizedEndpoint := normalizeEndpoint endpoint
    match validateEnvironment env with
    | .error e => ([], .error (outerWrap normalizedEndpoint e))
    | .ok (url, authHeader) =>
        let requestUrl := url ++ normalizedEndpoint
        let headers := mergeHeaders options.headers authHeader
        let cfg : LoopConfig :=
          ⟨options.timeoutMs, options.maxRetries, options.baseRetryDelayMs,
            requestUrl, headers, normalizedEndpoint⟩
        let evs := (runAttempts transport cfg).1
        match (runAttempts transport cfg).2 with
        | .returned v => (evs, .ok v)
        | .threw e => (evs, .error (outerWrap normalizedEndpoint e))
        | .fellThrough (some e) => (evs, .error (outerWrap normalizedEndpoint e))
        | .fellThrough none =>
            (evs, .error (.grafana 500 normalizedEndpoint
              "Unexpected error: null" .UNKNOWN none))

/-- Number of transport invocations recorded in a trace. -/
def fetchCount (evs : List Event) : Nat :=
  (evs.filter (fun e => match e with | .fetchCall _ _ => true | _ => false)).length

/-- The backoff sleeps recorded in a trace, in order. -/
def sleeps (evs : List Event) : List Int :=
  evs.filterMap (fun e => match e with | .sleep d => some d | _ => none)

/-- The URLs of the transport invocations recorded in a trace. -/
def fetchUrls (evs : List Event) : List String :=
  evs.filterMap (fun e => match e with | .fetchCall u _ => some u | _ => none)

/-- A fixed environment with a Bearer token, for concrete runs. -/
def env0 : Env :=
  ⟨some "http://g", some "k", none, none⟩

/-- A response script answering every invocation with status 200 and a
JSON body parsing to the value "success". -/
def okTransport : Nat → FetchOutcome := fun _ =>
  .success { status := 200, contentType := "application/json",
             jsonResult := .ok "success" }

/-- A transport whose first invocation rejects with a network TypeError
and whose later invocations succeed. -/
def netErrTransport : Nat → FetchOutcome := fun n =>
  if n = 0 then .failure ⟨true, "TypeError", "Failed to fetch: network error"⟩
  else .success { status := 200, jsonResult := .ok "success" }

/-- A transport whose first invocation rejects with an AbortError and
whose later invocations succeed. -/
def abortTransport : Nat → FetchOutcome := fun n =>
  if n = 0 then .failure ⟨false, "AbortError", "The operation was aborted"⟩
  else .success { status := 200, jsonResult := .ok "success" }

/-- A transport answering the first two invocations with status 500 and
the rest with status 200. -/
def script552 : Nat → FetchOutcome := fun n =>
  if n < 2 then .success { status := 500, bodyText := "Server error" }
  else .success { status := 200, jsonResult := .ok "success" }

/-- A transport answering every invocation with a 200 response of the
given declared content type whose body is the plain text "ok", which is
not valid JSON. -/
def textTransport (contentType : String) : Nat → FetchOutcome := fun _ =>
  .success { status := 200, contentType := contentType, bodyText := "ok",
             jsonResult := .error "Unexpected token o in JSON at position 0" }

/-! Helper lemmas shared by the claim theorems. -/

theorem jsObjGet_jsObjSet_self (hs : List (String × String)) (k v : String) :
    jsObjGet (jsObjSet hs k v) k = some v := by
  induction hs with
  | nil => simp [jsObjSet, jsObjGet]
  | cons p rest ih =>
      obtain ⟨k1, v1⟩ := p
      by_cases h : k1 = k
      · simp [jsObjSet, jsObjGet, h]
      · simp [jsObjSet, jsObjGet, h, ih]

theorem jsObjGet_jsObjSet_ne (hs : List (String × String)) (k v k2 : String)
    (h : k2 ≠ k) :
    jsObjGet (jsObjSet hs k v) k2 = jsObjGet hs k2 := by
  induction hs with
  | nil => simp [jsObjSet, jsObjGet, Ne.symm h]
  | cons p rest ih =>
      obtain ⟨k1, v1⟩ := p
      by_cases h1 : k1 = k
      · subst h1
        simp [jsObjSet, jsObjGet, Ne.symm h]
      · by_cases h2 : k1 = k2
        · simp [jsObjSet, jsObjGet, h1, h2, h]
        · simp [jsObjSet, jsObjGet, h1, h2, ih]

theorem jsObjGet_mergeHeaders (caller : List (String × String)) (authHeader : String) :
    jsObjGet (mergeHeaders caller authHeader) "Authorization" = some authHeader ∧
    jsObjGet (mergeHeaders caller authHeader) "Content-Type" = some "application/json" ∧
    jsObjGet (mergeHeaders caller authHeader) "Accept" = some "application/json" := by
  unfold mergeHeaders
  refine ⟨?_, ?_, ?_⟩
  · rw [jsObjGet_jsObjSet_ne _ _ _ _ (by decide),
      jsObjGet_jsObjSet_ne _ _ _ _ (by decide), jsObjGet_jsObjSet_self]
  · rw [jsObjGet_jsObjSet_ne _ _ _ _ (by decide), jsObjGet_jsObjSet_self]
  · rw [jsObjGet_jsObjSet_self]

theorem attemptPrelude_fetchCall (t b : Int) (attempt : Nat) (url : String)
    (hdrs : List (String × String)) (u : String) (hs : List (String × String))
    (hmem : Event.fetchCall u hs ∈ attemptPrelude t b attempt url hdrs) :
    u = url ∧ hs = hdrs := by
  unfold attemptPrelude at hmem
  by_cases ha : attempt > 0 <;> simp [ha] at hmem <;> exact hmem

theorem attemptBody_events (transport : Nat → FetchOutcome) (cfg : LoopConfig)
    (attempt : Nat) :
    (attemptBody transport cfg attempt).1 =
      attemptPrelude cfg.timeoutMs cfg.baseRetryDelayMs attempt
        cfg.requestUrl cfg.headers ∨
    (attemptBody transport cfg attempt).1 =
      attemptPrelude cfg.timeoutMs cfg.baseRetryDelayMs attempt
        cfg.requestUrl cfg.headers ++ [.clearTimeoutCall] := by
  unfold attemptBody
  split
  · left; rfl
  · split
    · right; rfl
    · split <;> (right; rfl)

theorem attemptBody_fetchCall (transport : Nat → FetchOutcome) (cfg : LoopConfig)
    (attempt : Nat) (u : String) (hs : List (String × String))
    (hmem : Event.fetchCall u hs ∈ (attemptBody transport cfg attempt).1) :
    u = cfg.requestUrl ∧ hs = cfg.headers := by
  rcases attemptBody_events transport cfg attempt with h | h <;> rw [h] at hmem
  · exact attemptPrelude_fetchCall _ _ _ _ _ _ _ hmem
  · rcases List.mem_append.mp hmem with hl | hr
    · exact attemptPrelude_fetchCall _ _ _ _ _ _ _ hl
    · simp at hr

theorem loopGo_fetchCall (transport : Nat → FetchOutcome) (cfg : LoopConfig) :
    ∀ (fuel attempt : Nat) (last : Option JsError) (u : String)
      (hs : List (String × String)),
    Event.fetchCall u hs ∈ (loopGo transport cfg fuel attempt last).1 →
    u = cfg.requestUrl ∧ hs = cfg.headers := by
  intro fuel
  induction fuel with
  | zero =>
      intro attempt last u hs hmem
      simp [loopGo] at hmem
  | succ n ih =>
      intro attempt last u hs hmem
      rw [loopGo] at hmem
      simp only [] at hmem
      split at hmem
      · exact attemptBody_fetchCall transport cfg attempt u hs hmem
      · next e heq =>
          by_cases hr : shouldRetry (wrapCaught cfg e) attempt cfg.maxRetries
          · rw [if_pos hr] at hmem
            rcases List.mem_append.mp hmem with hl | hr2
            · exact attemptBody_fetchCall transport cfg attempt u hs hl
            · exact ih (attempt + 1) (some (wrapCaught cfg e)) u hs hr2
          · rw [if_neg hr] at hmem
            exact attemptBody_fetchCall transport cfg attempt u hs hmem

theorem loopGo_not_fellThrough (transport : Nat → FetchOutcome) (cfg : LoopConfig) :
    ∀ (fuel attempt : Nat) (last le : Option JsError),
    cfg.maxRetries + 1 ≤ (attempt : Int) + (fuel : Int) → 1 ≤ fuel →
    (loopGo transport cfg fuel attempt last).2 ≠ .fellThrough le := by
  intro fuel
  induction fuel with
  | zero => intro _ _ _ _ hf; omega
  | succ n ih =>
      intro attempt last le hbound _
      rw [loopGo]
      simp only []
      split
      · simp
      · next e heq =>
          by_cases hr : shouldRetry (wrapCaught cfg e) attempt cfg.maxRetries
          · have hlt : (attempt : Int) < cfg.maxRetries := by
              by_contra hge
              push_neg at hge
              have hfalse : shouldRetry (wrapCaught cfg e) attempt cfg.maxRetries = false := by
                unfold shouldRetry
                rw [if_pos hge]
              rw [hfalse] at hr
              simp at hr
            rw [if_pos hr]
            have hres := ih (attempt + 1) (some (wrapCaught cfg e)) le
              (by push_cast at hbound ⊢; omega) (by omega)
            simpa using hres
          · rw [if_neg hr]
            simp

/-! Theorems settling the claims. -/

/-- C1 (code bug evaluation): with remaining attempts available
(maxRetries = 3), a transport rejection that is a network TypeError is
wrapped as a NETWORK GrafanaApiError with status 0, and an AbortError is
wrapped as a TIMEOUT GrafanaApiError with status 408, before retry
eligibility is decided; shouldRetry on the wrapped errors falls into the
HTTP branch and answers false, so the executor throws after exactly one
transport invocation, although shouldRetry answers true on the raw
unwrapped errors.  The claim states that these failures are retried. -/
theorem C1_executor_throws_wrapped_network_and_timeout_errors :
    (grafanaApiRequestT env0 netErrTransport "/api/x" {}).2 =
      .error (.grafana 0 "api/x" "Network error: Failed to fetch: network error"
        .NETWORK (some ⟨true, "TypeError", "Failed to fetch: network error"⟩)) ∧
    fetchCount (grafanaApiRequestT env0 netErrTransport "/api/x" {}).1 = 1 ∧
    (grafanaApiRequestT env0 abortTransport "/api/x" {}).2 =
      .error (.grafana 408 "api/x" "Request timed out after 30000ms"
        .TIMEOUT (some ⟨false, "AbortError", "The operation was aborted"⟩)) ∧
    fetchCount (grafanaApiRequestT env0 abortTransport "/api/x" {}).1 = 1 ∧
    shouldRetry (.plain ⟨true, "TypeError", "Failed to fetch: network error"⟩) 0 3 = true ∧
    shouldRetry (.plain ⟨false, "AbortError", "The operation was aborted"⟩) 0 3 = true ∧
    shouldRetry (.grafana 0 "api/x" "Network error: Failed to fetch: network error"
      .NETWORK (some ⟨true, "TypeError", "Failed to fetch: network error"⟩)) 0 3 = false ∧
    shouldRetry (.grafana 408 "api/x" "Request timed out after 30000ms"
      .TIMEOUT (some ⟨false, "AbortError", "The operation was aborted"⟩)) 0 3 = false :=
  ⟨rfl, rfl, rfl, rfl, rfl, rfl, rfl, rfl⟩

/-- C2 (code bug evaluation): the abort timer of an iteration is armed
before the backoff sleep of that iteration, so the window available to
the network call of retry attempt 1 under the default configuration is
29000 ms rather than the full 30000 ms, and with timeoutMs = 1000 and
baseRetryDelayMs = 2000 the window is negative: the signal fires during
the backoff sleep, before fetch is even issued.  Only attempt 0 gets the
full window.  The trace of a concrete run exhibits the arm, sleep, fetch
order.  The claim states every attempt has the full timeoutMs
available. -/
theorem C2_abort_timer_armed_before_backoff :
    fetchWindowMs 30000 1000 1 = 29000 ∧
    fetchWindowMs 1000 2000 1 = -1000 ∧
    fetchWindowMs 30000 1000 0 = 30000 ∧
    (grafanaApiRequestT env0 (fun _ => .success { status := 500 }) "/api/x"
      { timeoutMs := 1000, baseRetryDelayMs := 2000, maxRetries := 1 }).1 =
      [.armTimeout 1000, .fetchCall "http://g/api/x" (mergeHeaders [] "Bearer k"),
       .clearTimeoutCall,
       .armTimeout 1000, .sleep 2000,
       .fetchCall "http://g/api/x" (mergeHeaders [] "Bearer k"), .clearTimeoutCall] :=
  ⟨rfl, rfl, rfl, rfl⟩

/-- C3 (code bug evaluation): grafanaApiRequest always calls
response.json() on a success response and never consults the declared
content type: given a 200 response with content type text/plain and the
plain-text body "ok" (not valid JSON), the call rejects with a wrapped
GrafanaApiError of status 500 and kind UNKNOWN instead of resolving to
the string "ok"; moreover the result is identical for every declared
content type.  The claim states decoding is chosen by content type with
a raw-text fallback. -/
theorem C3_success_body_always_json_parsed :
    (grafanaApiRequestT env0 (textTransport "text/plain") "/api/x" {}).2 =
      .error (.grafana 500 "api/x"
        "Unexpected error: Unexpected token o in JSON at position 0"
        .UNKNOWN (some ⟨false, "SyntaxError",
          "Unexpected token o in JSON at position 0"⟩)) ∧
    (∀ ct ct2 : String,
      grafanaApiRequestT env0 (textTransport ct) "/api/x" {} =
        grafanaApiRequestT env0 (textTransport ct2) "/api/x" {}) :=
  ⟨rfl, fun _ _ => rfl⟩

/-- C4 counterexample: with GRAFANA_URL unset, the caller receives a
GrafanaApiError with status 500 and kind UNKNOWN wrapping the plain
configuration error, not a bare error as the claim states. -/
theorem C4_counterexample :
    (grafanaApiRequestT ⟨none, some "k", none, none⟩ okTransport "/api/x" {}).2 =
      .error (.grafana 500 "api/x"
        "Unexpected error: GRAFANA_URL must be set in your environment."
        .UNKNOWN (some ⟨false, "Error", "GRAFANA_URL must be set in your environment."⟩)) :=
  rfl

/-- C4 (amended): when the base URL is unset or empty after trimming,
validateEnvironment throws a plain configuration error, but because it is
invoked inside the outer try of grafanaApiRequest, the caller receives it
wrapped as a GrafanaApiError with statusCode 500 and type UNKNOWN, before
any transport invocation; only the bad-endpoint argument error reaches
the caller bare. -/
theorem C4_missing_url_wrapped_as_grafana_error
    (env : Env) (transport : Nat → FetchOutcome) (endpoint : String)
    (options : RequestOptions)
    (he : endpoint ≠ "") (hurl : optTrim env.GRAFANA_URL = "") :
    (grafanaApiRequestT env transport endpoint options).2 =
      .error (.grafana 500 (normalizeEndpoint endpoint)
        "Unexpected error: GRAFANA_URL must be set in your environment."
        .UNKNOWN (some ⟨false, "Error", "GRAFANA_URL must be set in your environment."⟩)) ∧
    (grafanaApiRequestT env transport endpoint options).1 = [] := by
  unfold grafanaApiRequestT validateEnvironment
  rw [if_neg he]
  simp [hurl, outerWrap]

theorem C4_witness :
    (grafanaApiRequestT ⟨none, some "k", none, none⟩ okTransport "/api/x" {}).2 =
      .error (.grafana 500 (normalizeEndpoint "/api/x")
        "Unexpected error: GRAFANA_URL must be set in your environment."
        .UNKNOWN (some ⟨false, "Error", "GRAFANA_URL must be set in your environment."⟩)) ∧
    (grafanaApiRequestT ⟨none, some "k", none, none⟩ okTransport "/api/x" {}).1 = [] :=
  C4_missing_url_wrapped_as_grafana_error ⟨none, some "k", none, none⟩ okTransport
    "/api/x" {} (by decide) rfl

/-- C5: given a transport answering 500, 500, 200 and maxRetries = 2, the
call succeeds, the transport is invoked exactly 3 times, and the backoff
sleeps before the second and third invocations are baseRetryDelayMs * 1
and baseRetryDelayMs * 2, for every base delay. -/
theorem C5_retry_backoff_sequence (base : Int) :
    (grafanaApiRequestT env0 script552 "/api/x"
      { maxRetries := 2, baseRetryDelayMs := base }).2 = .ok "success" ∧
    fetchCount (grafanaApiRequestT env0 script552 "/api/x"
      { maxRetries := 2, baseRetryDelayMs := base }).1 = 3 ∧
    sleeps (grafanaApiRequestT env0 script552 "/api/x"
      { maxRetries := 2, baseRetryDelayMs := base }).1 = [base * 1, base * 2] := by
  refine ⟨rfl, rfl, ?_⟩
  have h : sleeps (grafanaApiRequestT env0 script552 "/api/x"
      { maxRetries := 2, baseRetryDelayMs := base }).1 =
      [base * 2 ^ (0 : Nat), base * 2 ^ (1 : Nat)] := rfl
  rw [h]
  norm_num

/-- C6 counterexample: the endpoints "//x" and "/x" differ only in
leading slashes, yet produce different request URLs, and the URL built
for "//x" contains two slashes at the join: only one leading slash is
stripped. -/
theorem C6_counterexample :
    fetchUrls (grafanaApiRequestT env0 okTransport "//x" {}).1 = ["http://g//x"] ∧
    fetchUrls (grafanaApiRequestT env0 okTransport "/x" {}).1 = ["http://g/x"] ∧
    "http://g//x" ≠ "http://g/x" :=
  ⟨rfl, rfl, by decide⟩

theorem grafanaApiRequestT_congr_endpoint (env : Env)
    (transport : Nat → FetchOutcome) (options : RequestOptions)
    (e1 e2 : String) (h1 : e1 ≠ "") (h2 : e2 ≠ "")
    (hn : normalizeEndpoint e1 = normalizeEndpoint e2) :
    grafanaApiRequestT env transport e1 options =
      grafanaApiRequestT env transport e2 options := by
  unfold grafanaApiRequestT
  rw [if_neg h1, if_neg h2, hn]

/-- C6 (amended): the normalization strips exactly one leading slash when
one is present, so two endpoint strings differing by one leading slash
produce identical calls; endpoints carrying further leading slashes keep
them, producing extra slashes at the join. -/
theorem C6_single_slash_normalization (env : Env)
    (transport : Nat → FetchOutcome) (options : RequestOptions) (e : String)
    (he : e ≠ "") (hd : e.data.head? ≠ some '/') :
    grafanaApiRequestT env transport ("/" ++ e) options =
      grafanaApiRequestT env transport e options := by
  obtain ⟨l⟩ := e
  have hdata : ("/" ++ String.mk l) = String.mk ('/' :: l) := rfl
  have hne2 : String.mk ('/' :: l) ≠ "" := by
    intro hc
    rw [String.ext_iff] at hc
    simp at hc
  have hnorm : normalizeEndpoint (String.mk ('/' :: l)) =
      normalizeEndpoint (String.mk l) := by
    unfold normalizeEndpoint
    cases l with
    | nil => rfl
    | cons c cs =>
        have hc : c ≠ '/' := by simpa using hd
        simp [hc]
  rw [hdata]
  exact grafanaApiRequestT_congr_endpoint env transport options _ _ hne2 he hnorm

theorem C6_witness :
    grafanaApiRequestT env0 okTransport ("/" ++ "api/x") {} =
      grafanaApiRequestT env0 okTransport "api/x" {} :=
  C6_single_slash_normalization env0 okTransport {} "api/x" (by decide) (by decide)

/-- C7: when the base URL is configured but no credentials are (the API
key trims to empty and username or password trims to empty), the call
fails with a GrafanaApiError of statusCode 401, type AUTHENTICATION and
endpoint marker "authentication", with an empty trace: no transport
invocation happens. -/
theorem C7_missing_credentials_auth_error (env : Env)
    (transport : Nat → FetchOutcome) (endpoint : String)
    (options : RequestOptions)
    (he : endpoint ≠ "") (hurl : optTrim env.GRAFANA_URL ≠ "")
    (hkey : optTrim env.GRAFANA_API_KEY = "")
    (hcred : optTrim env.GRAFANA_USERNAME = "" ∨ optTrim env.GRAFANA_PASSWORD = "") :
    (grafanaApiRequestT env transport endpoint options).2 =
      .error (.grafana 401 "authentication" authMissingMessage .AUTHENTICATION none) ∧
    (grafanaApiRequestT env transport endpoint options).1 = [] := by
  unfold grafanaApiRequestT validateEnvironment
  rw [if_neg he]
  rcases hcred with hu | hp
  · simp [hurl, hkey, hu, outerWrap]
  · simp [hurl, hkey, hp, outerWrap]

theorem C7_witness :
    (grafanaApiRequestT ⟨some "http://g", none, none, none⟩ okTransport
      "/api/x" {}).2 =
      .error (.grafana 401 "authentication" authMissingMessage .AUTHENTICATION none) ∧
    (grafanaApiRequestT ⟨some "http://g", none, none, none⟩ okTransport
      "/api/x" {}).1 = [] :=
  C7_missing_credentials_auth_error ⟨some "http://g", none, none, none⟩ okTransport
    "/api/x" {} (by decide) (by decide) rfl (Or.inl rfl)

/-- C8 counterexample: the key "AUTHORIZATION" equals "authorization"
under case-insensitive comparison, yet sanitizeHeaders leaves its value
untouched and safeLog emits it verbatim: only the two exact spellings
"Authorization" and "authorization" are redacted. -/
theorem C8_counterexample :
    "AUTHORIZATION".data.map Char.toLower = "authorization".data ∧
    sanitizeHeaders [("AUTHORIZATION", "Bearer secret")] =
      [("AUTHORIZATION", "Bearer secret")] ∧
    safeLogEmittedHeaders [("AUTHORIZATION", "Bearer secret")] true =
      some [("AUTHORIZATION", "Bearer secret")] :=
  ⟨by decide, rfl, rfl⟩

/-- C8 (amended): when logging is enabled, a header entry whose key is
exactly "Authorization" or exactly "authorization" and whose value is
truthy is emitted with value "[REDACTED]"; other capitalizations of the
key are not redacted. -/
theorem C8_exact_case_redaction (headers : List (String × String)) (k v : String)
    (hk : k = "Authorization" ∨ k = "authorization")
    (hv : jsObjGet headers k = some v) (hne : v ≠ "") :
    jsObjGet (sanitizeHeaders headers) k = some "[REDACTED]" ∧
    safeLogEmittedHeaders headers true = some (sanitizeHeaders headers) := by
  refine ⟨?_, rfl⟩
  unfold sanitizeHeaders
  simp only []
  rcases hk with hk | hk <;> subst hk
  · have ht : jsTruthy (jsObjGet headers "Authorization") = true := by
      rw [hv]; simp [jsTruthy, hne]
    rw [if_pos ht]
    by_cases hc2 : jsTruthy (jsObjGet
        (jsObjSet headers "Authorization" "[REDACTED]") "authorization") = true
    · rw [if_pos hc2, jsObjGet_jsObjSet_ne _ _ _ _ (by decide),
        jsObjGet_jsObjSet_self]
    · rw [if_neg hc2, jsObjGet_jsObjSet_self]
  · by_cases hc1 : jsTruthy (jsObjGet headers "Authorization") = true
    · rw [if_pos hc1]
      have hget : jsObjGet (jsObjSet headers "Authorization" "[REDACTED]")
          "authorization" = some v := by
        rw [jsObjGet_jsObjSet_ne _ _ _ _ (by decide)]; exact hv
      have ht : jsTruthy (jsObjGet (jsObjSet headers "Authorization" "[REDACTED]")
          "authorization") = true := by
        rw [hget]; simp [jsTruthy, hne]
      rw [if_pos ht, jsObjGet_jsObjSet_self]
    · rw [if_neg hc1]
      have ht : jsTruthy (jsObjGet headers "authorization") = true := by
        rw [hv]; simp [jsTruthy, hne]
      rw [if_pos ht, jsObjGet_jsObjSet_self]

theorem C8_witness :
    jsObjGet (sanitizeHeaders [("Authorization", "Bearer t")]) "Authorization" =
      some "[REDACTED]" ∧
    safeLogEmittedHeaders [("Authorization", "Bearer t")] true =
      some (sanitizeHeaders [("Authorization", "Bearer t")]) :=
  C8_exact_case_redaction [("Authorization", "Bearer t")] "Authorization" "Bearer t"
    (Or.inl rfl) rfl (by decide)

/-- C9: every transport invocation of a call carries the merged headers,
in which the Authorization value is the one resolved by
validateEnvironment, Content-Type is application/json and Accept is
application/json, whatever headers the caller supplied: a caller entry
for one of these three keys is overwritten by the component. -/
theorem C9_required_headers_not_overridable (env : Env)
    (transport : Nat → FetchOutcome) (endpoint : String)
    (options : RequestOptions) (url authHeader : String)
    (hv : validateEnvironment env = .ok (url, authHeader)) :
    ∀ (u : String) (hs : List (String × String)),
      Event.fetchCall u hs ∈ (grafanaApiRequestT env transport endpoint options).1 →
      jsObjGet hs "Authorization" = some authHeader ∧
      jsObjGet hs "Content-Type" = some "application/json" ∧
      jsObjGet hs "Accept" = some "application/json" := by
  intro u hs hmem
  unfold grafanaApiRequestT at hmem
  by_cases he : endpoint = ""
  · rw [if_pos he] at hmem
    simp at hmem
  · rw [if_neg he, hv] at hmem
    simp only [] at hmem
    split at hmem <;>
      (obtain ⟨-, hhs⟩ := loopGo_fetchCall transport _ _ _ _ u hs hmem;
       subst hhs;
       exact jsObjGet_mergeHeaders options.headers authHeader)

theorem C9_witness :
    jsObjGet (mergeHeaders [("Authorization", "evil"), ("X-Custom", "y")]
      "Bearer k") "Authorization" = some "Bearer k" ∧
    jsObjGet (mergeHeaders [("Authorization", "evil"), ("X-Custom", "y")]
      "Bearer k") "Content-Type" = some "application/json" ∧
    jsObjGet (mergeHeaders [("Authorization", "evil"), ("X-Custom", "y")]
      "Bearer k") "Accept" = some "application/json" :=
  C9_required_headers_not_overridable env0 okTransport "/api/x"
    { headers := [("Authorization", "evil"), ("X-Custom", "y")] }
    "http://g/" "Bearer k" rfl "http://g/api/x"
    (mergeHeaders [("Authorization", "evil"), ("X-Custom", "y")] "Bearer k")
    (by decide)

/-- C10: for every nonnegative maxRetries the attempt loop settles by
returning or throwing from inside the loop, never by the fall-through
after it; and for a negative maxRetries the loop body never runs, the
null last error is thrown and wrapped, and the call fails with a
GrafanaApiError of statusCode 500 and type UNKNOWN without any transport
invocation. -/
theorem C10_attempt_loop_exhaustive :
    (∀ (transport : Nat → FetchOutcome) (cfg : LoopConfig) (le : Option JsError),
      0 ≤ cfg.maxRetries →
      (runAttempts transport cfg).2 ≠ .fellThrough le) ∧
    (∀ (env : Env) (transport : Nat → FetchOutcome) (endpoint : String)
        (options : RequestOptions) (url authHeader : String),
      endpoint ≠ "" →
      validateEnvironment env = .ok (url, authHeader) →
      options.maxRetries < 0 →
      (grafanaApiRequestT env transport endpoint options).2 =
        .error (.grafana 500 (normalizeEndpoint endpoint)
          "Unexpected error: null" .UNKNOWN none) ∧
      fetchCount (grafanaApiRequestT env transport endpoint options).1 = 0) := by
  constructor
  · intro transport cfg le hmr
    unfold runAttempts
    apply loopGo_not_fellThrough transport cfg ((cfg.maxRetries + 1).toNat) 0 none le
    · omega
    · omega
  · intro env transport endpoint options url authHeader he hv hneg
    have hfuel : (options.maxRetries + 1).toNat = 0 := by omega
    unfold grafanaApiRequestT
    rw [if_neg he, hv]
    simp only []
    unfold runAttempts
    simp only [hfuel]
    simp [loopGo, fetchCount]

theorem C10_witness :
    (runAttempts okTransport ⟨30000, 3, 1000, "u", [], "e"⟩).2 ≠
      .fellThrough none ∧
    (grafanaApiRequestT env0 okTransport "/api/x" { maxRetries := -1 }).2 =
      .error (.grafana 500 (normalizeEndpoint "/api/x")
        "Unexpected error: null" .UNKNOWN none) :=
  ⟨C10_attempt_loop_exhaustive.1 okTransport ⟨30000, 3, 1000, "u", [], "e"⟩ none
    (by decide),
   (C10_attempt_loop_exhaustive.2 env0 okTransport "/api/x" { maxRetries := -1 }
    "http://g/" "Bearer k" (by decide) rfl (by decide)).1⟩

end GrafanaApi
